import Mathlib

/-!
Verification of the AliTok training orchestrator (`train_ar.py`) and its
structured logger (`utils/logger.py`): a shallow embedding of the step
bookkeeping arithmetic, the epoch-loop control flow of `main` as an event
trace, the `setup_logger` cache/registry state machine, and the colorful
console formatter, together with theorems settling the specified
properties.
-/

namespace AliTok

/-- Ceiling division on naturals: the value `math.ceil(a / b)` computed by
`train_ar.py` on positive integers `a`, `b`. -/
def ceil_div (a b : Nat) : Nat := (a + b - 1) / b

/-- The configuration fields of `config.training` / `config.experiment`
consumed by the step bookkeeping in `train_ar.py` (lines 98-107). -/
structure TrainingConfig where
  max_train_steps : Nat
  gradient_accumulation_steps : Nat
  per_gpu_batch_size : Nat
  max_train_examples : Nat
  use_ema : Bool
deriving Repr, DecidableEq

/-- `total_batch_size_without_accum` (train_ar.py line 98):
`per_gpu_batch_size * accelerator.num_processes`. -/
def total_batch_size_without_accum (cfg : TrainingConfig) (num_processes : Nat) : Nat :=
  cfg.per_gpu_batch_size * num_processes

/-- `num_batches` (train_ar.py lines 99-100):
`math.ceil(max_train_examples / total_batch_size_without_accum)`. -/
def num_batches (cfg : TrainingConfig) (num_processes : Nat) : Nat :=
  ceil_div cfg.max_train_examples (total_batch_size_without_accum cfg num_processes)

/-- `num_update_steps_per_epoch` (train_ar.py line 102):
`math.ceil(num_batches / gradient_accumulation_steps)`. -/
def num_update_steps_per_epoch (cfg : TrainingConfig) (num_processes : Nat) : Nat :=
  ceil_div (num_batches cfg num_processes) cfg.gradient_accumulation_steps

/-- `num_train_epochs` (train_ar.py line 107):
`math.ceil(max_train_steps / num_update_steps_per_epoch)`. -/
def num_train_epochs (cfg : TrainingConfig) (num_processes : Nat) : Nat :=
  ceil_div cfg.max_train_steps (num_update_steps_per_epoch cfg num_processes)

lemma ceil_div_pos (a b : Nat) (ha : 0 < a) (hb : 0 < b) : 0 < ceil_div a b := by
  unfold ceil_div
  exact (Nat.le_div_iff_mul_le hb).mpr (by omega)

lemma le_ceil_div_mul (a b : Nat) (hb : 0 < b) : a ≤ ceil_div a b * b := by
  rcases Nat.eq_zero_or_pos a with rfl | ha
  · exact Nat.zero_le _
  · unfold ceil_div
    have h1 : a + b - 1 = (a - 1) + b := by omega
    rw [h1, Nat.add_div_right _ hb]
    have hdm := Nat.div_add_mod (a - 1) b
    have hml : (a - 1) % b < b := Nat.mod_lt _ hb
    calc a = b * ((a - 1) / b) + ((a - 1) % b + 1) := by
            rw [← Nat.add_assoc, hdm]; omega
      _ ≤ b * ((a - 1) / b) + b := Nat.add_le_add_left (by omega) _
      _ = ((a - 1) / b + 1) * b := by ring

lemma ceil_div_pred_mul_lt (a b : Nat) (ha : 0 < a) (hb : 0 < b) :
    (ceil_div a b - 1) * b < a := by
  unfold ceil_div
  have h1 : a + b - 1 = (a - 1) + b := by omega
  rw [h1, Nat.add_div_right _ hb]
  rw [Nat.add_sub_cancel]
  have hle : (a - 1) / b * b ≤ a - 1 := Nat.div_mul_le_self _ _
  exact lt_of_le_of_lt hle (by omega)

/-- Claim C3: for every config with `max_train_steps > 0`,
`gradient_accumulation_steps >= 1`, `per_gpu_batch_size > 0` and
`max_train_examples > 0` (and at least one process), the orchestrator's
derived quantities follow the spec formulas and satisfy the ceiling
property `num_epochs * updates_per_epoch >= max_train_steps` and
`(num_epochs - 1) * updates_per_epoch < max_train_steps`. -/
theorem derived_counts_ceiling (cfg : TrainingConfig) (np : Nat)
    (h1 : 0 < cfg.max_train_steps) (h2 : 1 ≤ cfg.gradient_accumulation_steps)
    (h3 : 0 < cfg.per_gpu_batch_size) (h4 : 0 < cfg.max_train_examples)
    (h5 : 0 < np) :
    total_batch_size_without_accum cfg np = cfg.per_gpu_batch_size * np ∧
    num_batches cfg np
      = ceil_div cfg.max_train_examples (total_batch_size_without_accum cfg np) ∧
    num_update_steps_per_epoch cfg np
      = ceil_div (num_batches cfg np) cfg.gradient_accumulation_steps ∧
    num_train_epochs cfg np
      = ceil_div cfg.max_train_steps (num_update_steps_per_epoch cfg np) ∧
    cfg.max_train_steps ≤ num_train_epochs cfg np * num_update_steps_per_epoch cfg np ∧
    (num_train_epochs cfg np - 1) * num_update_steps_per_epoch cfg np
      < cfg.max_train_steps := by
  have hebs : 0 < total_batch_size_without_accum cfg np := Nat.mul_pos h3 h5
  have hnb : 0 < num_batches cfg np := ceil_div_pos _ _ h4 hebs
  have hup : 0 < num_update_steps_per_epoch cfg np := ceil_div_pos _ _ hnb h2
  exact ⟨rfl, rfl, rfl, rfl, le_ceil_div_mul _ _ hup, ceil_div_pred_mul_lt _ _ h1 hup⟩

/-- The end-to-end scenario configuration of spec section 8:
`max_train_examples = 1000`, `per_gpu_batch_size = 10`,
`gradient_accumulation_steps = 5`, `max_train_steps = 3`, two processes. -/
def scenarioConfig : TrainingConfig :=
  { max_train_steps := 3, gradient_accumulation_steps := 5,
    per_gpu_batch_size := 10, max_train_examples := 1000, use_ema := false }

/-- Witness for claim C3 at the spec's end-to-end scenario. -/
theorem derived_counts_ceiling_witness :
    total_batch_size_without_accum scenarioConfig 2 = scenarioConfig.per_gpu_batch_size * 2 ∧
    num_batches scenarioConfig 2
      = ceil_div scenarioConfig.max_train_examples (total_batch_size_without_accum scenarioConfig 2) ∧
    num_update_steps_per_epoch scenarioConfig 2
      = ceil_div (num_batches scenarioConfig 2) scenarioConfig.gradient_accumulation_steps ∧
    num_train_epochs scenarioConfig 2
      = ceil_div scenarioConfig.max_train_steps (num_update_steps_per_epoch scenarioConfig 2) ∧
    scenarioConfig.max_train_steps
      ≤ num_train_epochs scenarioConfig 2 * num_update_steps_per_epoch scenarioConfig 2 ∧
    (num_train_epochs scenarioConfig 2 - 1) * num_update_steps_per_epoch scenarioConfig 2
      < scenarioConfig.max_train_steps :=
  derived_counts_ceiling scenarioConfig 2 (by decide) (by decide) (by decide)
    (by decide) (by decide)

/-- The observable events of `main` (train_ar.py lines 54-150), in program
order: tracker initialization and config snapshot (primary only),
barrier synchronization (`accelerator.wait_for_everyone`), tokenizer
loading, model/optimizer/scheduler/dataloader preparation, the
`auto_resume` call, one `trainEpoch` event per invocation of the step-loop
collaborator (recording the epoch index and the incoming and outgoing
`global_step`), the final `save_checkpoint` call, the EMA merge and final
weight export (primary only), and `end_training`. -/
inductive Event where
  | initTrackers : Event
  | saveConfig : Event
  | barrier : Event
  | loadTokenizer : Event
  | prepareTraining : Event
  | autoResumeCall : Event
  | trainEpoch (epoch gsIn gsOut : Nat) : Event
  | saveCheckpoint (gs : Nat) : Event
  | emaCopy : Event
  | saveFinalWeights : Event
  | endTraining : Event
deriving Repr, DecidableEq

/-- The epoch loop of `main` (train_ar.py lines 124-139):
`for current_epoch in range(e, num_train_epochs)` runs the step-loop
collaborator `step : epoch -> global_step -> global_step` once per epoch
and then executes `break` as soon as `global_step >= max_train_steps`.
The third argument is the remaining iteration count of the `range`; the
result is the final `global_step` paired with the emitted `trainEpoch`
events in order. -/
def epochLoopGo (step : Nat → Nat → Nat) (maxSteps : Nat) :
    Nat → Nat → Nat → Nat × List Event
  | 0, _, gs => (gs, [])
  | fuel + 1, e, gs =>
    if maxSteps ≤ step e gs then
      (step e gs, [Event.trainEpoch e gs (step e gs)])
    else
      let r := epochLoopGo step maxSteps fuel (e + 1) (step e gs)
      (r.1, Event.trainEpoch e gs (step e gs) :: r.2)

/-- The control flow of `main` (train_ar.py lines 54-150) as an event
trace, parameterised over this process's `is_main_process` flag,
`config.training.use_ema`, the external step-loop collaborator, the step
budget, the derived epoch count, and the `(first_epoch, global_step)`
starting point returned by auto-resume. The value is the final
`global_step` paired with the trace. -/
def mainRun (isMain useEma : Bool) (step : Nat → Nat → Nat)
    (maxSteps numEpochs firstEpoch gs0 : Nat) : Nat × List Event :=
  let startEvents := if isMain then [Event.initTrackers, Event.saveConfig] else []
  let loop := epochLoopGo step maxSteps (numEpochs - firstEpoch) firstEpoch gs0
  let finalEvents :=
    if isMain then (if useEma then [Event.emaCopy] else []) ++ [Event.saveFinalWeights]
    else []
  (loop.1,
    startEvents ++ Event.barrier ::
      Event.loadTokenizer :: Event.prepareTraining :: Event.autoResumeCall ::
      (loop.2 ++ Event.barrier :: Event.saveCheckpoint loop.1 ::
        (finalEvents ++ [Event.endTraining])))

/-- Claim C1: the epoch loop terminates authoritatively by the global-step
budget check: whenever the step-loop collaborator returns a `global_step`
with `global_step >= max_train_steps`, the loop exits immediately after
that epoch, and it does so for every remaining epoch count, so termination
is independent of the `num_train_epochs` rounding. -/
theorem epoch_loop_budget_exit (step : Nat → Nat → Nat)
    (maxSteps fuel1 fuel2 e gs : Nat) (h : maxSteps ≤ step e gs) :
    epochLoopGo step maxSteps (fuel1 + 1) e gs
      = (step e gs, [Event.trainEpoch e gs (step e gs)]) ∧
    epochLoopGo step maxSteps (fuel1 + 1) e gs
      = epochLoopGo step maxSteps (fuel2 + 1) e gs := by
  constructor <;> simp [epochLoopGo, if_pos h]

/-- Witness for claim C1: a collaborator that advances five updates per
epoch against a budget of three stops after a single epoch, regardless of
how many epochs of the `range` remain. -/
theorem epoch_loop_budget_exit_witness :
    epochLoopGo (fun _ g => g + 5) 3 (0 + 1) 0 0
      = ((fun _ g => g + 5) 0 0, [Event.trainEpoch 0 0 ((fun _ g => g + 5) 0 0)]) ∧
    epochLoopGo (fun _ g => g + 5) 3 (0 + 1) 0 0
      = epochLoopGo (fun _ g => g + 5) 3 (7 + 1) 0 0 :=
  epoch_loop_budget_exit (fun _ g => g + 5) 3 0 7 0 0 (by decide)

/-- Every event emitted by the epoch loop is a `trainEpoch` event whose
epoch index is at least the starting epoch, whose incoming `global_step`
is at least the starting one (when the collaborator never decreases the
counter), and whose outgoing value is the collaborator's result. -/
lemma epochLoopGo_events (step : Nat → Nat → Nat) (maxSteps : Nat)
    (hmono : ∀ e g, g ≤ step e g) :
    ∀ fuel e0 g0 ev, ev ∈ (epochLoopGo step maxSteps fuel e0 g0).2 →
      ∃ e a b, ev = Event.trainEpoch e a b ∧ e0 ≤ e ∧ g0 ≤ a ∧ b = step e a := by
  intro fuel
  induction fuel with
  | zero =>
    intro e0 g0 ev hmem
    simp [epochLoopGo] at hmem
  | succ n ih =>
    intro e0 g0 ev hmem
    simp only [epochLoopGo] at hmem
    by_cases hc : maxSteps ≤ step e0 g0
    · rw [if_pos hc] at hmem
      simp at hmem
      exact ⟨e0, g0, step e0 g0, hmem, le_refl _, le_refl _, rfl⟩
    · rw [if_neg hc] at hmem
      simp at hmem
      rcases hmem with h | h
      · exact ⟨e0, g0, step e0 g0, h, le_refl _, le_refl _, rfl⟩
      · obtain ⟨e, a, b, rfl, he, ha, hb⟩ := ih (e0 + 1) (step e0 g0) ev h
        exact ⟨e, a, b, rfl, by omega, le_trans (hmono e0 g0) ha, hb⟩

/-- A `trainEpoch` event appears in the trace of `main` exactly when the
epoch loop emitted it. -/
lemma trainEpoch_mem_mainRun (isMain useEma : Bool) (step : Nat → Nat → Nat)
    (maxSteps numEpochs firstEpoch gs0 e a b : Nat) :
    Event.trainEpoch e a b ∈ (mainRun isMain useEma step maxSteps numEpochs firstEpoch gs0).2 ↔
    Event.trainEpoch e a b
      ∈ (epochLoopGo step maxSteps (numEpochs - firstEpoch) firstEpoch gs0).2 := by
  cases isMain <;> cases useEma <;> simp [mainRun]

/-- Modelled from the spec: `auto_resume` lives in `utils/train_utils.py`,
which is not among the available sources. Per spec section 4.3, when no
checkpoint exists it returns `(global_step := 0, first_epoch := 0)`, and
when a checkpoint saved at `global_step = S` exists it restores the saved
state and returns `(S, S // updates_per_epoch)` with integer division.
The checkpoint listing is abstracted to the optional saved step. -/
def auto_resume (checkpointStep : Option Nat) (updates_per_epoch : Nat) :
    Nat × Nat :=
  match checkpointStep with
  | none => (0, 0)
  | some s => (s, s / updates_per_epoch)

/-- Claim C2: without a checkpoint, auto-resume yields
`(global_step = 0, first_epoch = 0)`; with a checkpoint saved at
`global_step = S` it yields `first_epoch = S // updates_per_epoch`, and a
run started from that pair invokes the step-loop collaborator only with
epoch indices at least `first_epoch` and running update counts at least
`S` (assuming the collaborator never decreases `global_step`), so no
optimizer update index below `S` is re-executed. -/
theorem auto_resume_resolution (u s maxSteps numEpochs : Nat)
    (isMain useEma : Bool) (step : Nat → Nat → Nat)
    (hmono : ∀ e g, g ≤ step e g) :
    auto_resume none u = (0, 0) ∧
    auto_resume (some s) u = (s, s / u) ∧
    ∀ e a b, Event.trainEpoch e a b ∈
        (mainRun isMain useEma step maxSteps numEpochs
          (auto_resume (some s) u).2 (auto_resume (some s) u).1).2 →
      s / u ≤ e ∧ s ≤ a := by
  refine ⟨rfl, rfl, ?_⟩
  intro e a b hmem
  simp only [auto_resume] at hmem
  rw [trainEpoch_mem_mainRun] at hmem
  obtain ⟨e', a', b', heq, he, ha, hb⟩ :=
    epochLoopGo_events step maxSteps hmono _ _ _ _ hmem
  simp only [Event.trainEpoch.injEq] at heq
  obtain ⟨rfl, rfl, rfl⟩ := heq
  exact ⟨he, ha⟩

/-- Witness for claim C2: resuming with `updates_per_epoch = 10` from no
checkpoint and from a checkpoint at step three. -/
theorem auto_resume_resolution_witness :
    auto_resume none 10 = (0, 0) ∧ auto_resume (some 3) 10 = (3, 3 / 10) :=
  ⟨(auto_resume_resolution 10 3 5 1 true false (fun _ g => g + 1)
      (fun _ g => Nat.le_succ g)).1,
   (auto_resume_resolution 10 3 5 1 true false (fun _ g => g + 1)
      (fun _ g => Nat.le_succ g)).2.1⟩

/-- Claim C10: when auto-resume yields a `first_epoch` at or past
`num_train_epochs`, the epoch loop body runs zero times, the final
`global_step` stays at the resumed value, and the run still performs both
barriers, still saves the final checkpoint at the resumed step, and the
primary process alone still exports the final weights. -/
theorem resume_past_budget_skips_loop (isMain useEma : Bool)
    (step : Nat → Nat → Nat) (maxSteps numEpochs s u : Nat)
    (h : numEpochs ≤ s / u) :
    (∀ e a b, Event.trainEpoch e a b ∉
        (mainRun isMain useEma step maxSteps numEpochs
          (auto_resume (some s) u).2 (auto_resume (some s) u).1).2) ∧
    (mainRun isMain useEma step maxSteps numEpochs
        (auto_resume (some s) u).2 (auto_resume (some s) u).1).1 = s ∧
    Event.saveCheckpoint s ∈
      (mainRun isMain useEma step maxSteps numEpochs
        (auto_resume (some s) u).2 (auto_resume (some s) u).1).2 ∧
    (mainRun isMain useEma step maxSteps numEpochs
        (auto_resume (some s) u).2 (auto_resume (some s) u).1).2.count Event.barrier = 2 ∧
    (Event.saveFinalWeights ∈
        (mainRun isMain useEma step maxSteps numEpochs
          (auto_resume (some s) u).2 (auto_resume (some s) u).1).2
      ↔ isMain = true) := by
  have hfe : numEpochs - s / u = 0 := Nat.sub_eq_zero_of_le h
  simp only [auto_resume]
  cases isMain <;> cases useEma <;>
    simp [mainRun, hfe, epochLoopGo, List.count_cons, List.count_nil]

/-- Witness for claim C10: restarting a two-epoch-budget run whose
checkpoint already sits at step five with `updates_per_epoch = 1`. -/
theorem resume_past_budget_skips_loop_witness :
    (mainRun true false (fun _ g => g + 1) 10 3
        (auto_resume (some 5) 1).2 (auto_resume (some 5) 1).1).1 = 5 ∧
    Event.saveCheckpoint 5 ∈
      (mainRun true false (fun _ g => g + 1) 10 3
        (auto_resume (some 5) 1).2 (auto_resume (some 5) 1).1).2 ∧
    (mainRun true false (fun _ g => g + 1) 10 3
        (auto_resume (some 5) 1).2 (auto_resume (some 5) 1).1).2.count Event.barrier = 2 :=
  ⟨(resume_past_budget_skips_loop true false (fun _ g => g + 1) 10 3 5 1 (by decide)).2.1,
   (resume_past_budget_skips_loop true false (fun _ g => g + 1) 10 3 5 1 (by decide)).2.2.1,
   (resume_past_budget_skips_loop true false (fun _ g => g + 1) 10 3 5 1 (by decide)).2.2.2.1⟩

/-- Every event emitted by the epoch loop is a `trainEpoch` event. -/
lemma epochLoopGo_shape (step : Nat → Nat → Nat) (maxSteps : Nat) :
    ∀ fuel e0 g0 ev, ev ∈ (epochLoopGo step maxSteps fuel e0 g0).2 →
      ∃ e a b, ev = Event.trainEpoch e a b := by
  intro fuel
  induction fuel with
  | zero =>
    intro e0 g0 ev hmem
    simp [epochLoopGo] at hmem
  | succ n ih =>
    intro e0 g0 ev hmem
    simp only [epochLoopGo] at hmem
    by_cases hc : maxSteps ≤ step e0 g0
    · rw [if_pos hc] at hmem
      simp at hmem
      exact ⟨e0, g0, step e0 g0, hmem⟩
    · rw [if_neg hc] at hmem
      simp at hmem
      rcases hmem with h | h
      · exact ⟨e0, g0, step e0 g0, h⟩
      · exact ih (e0 + 1) (step e0 g0) ev h

/-- An event that is no `trainEpoch` event never appears in the epoch
loop's trace. -/
lemma not_mem_epochLoopGo (step : Nat → Nat → Nat)
    (maxSteps fuel e0 g0 : Nat) (ev : Event)
    (hne : ∀ e a b, ev ≠ Event.trainEpoch e a b) :
    ev ∉ (epochLoopGo step maxSteps fuel e0 g0).2 := by
  intro hmem
  obtain ⟨e, a, b, heq⟩ := epochLoopGo_shape step maxSteps fuel e0 g0 ev hmem
  exact hne e a b heq

/-- The events of `main` that are guarded by `accelerator.is_main_process`
(train_ar.py lines 54-59 and 145-149). -/
def primaryOnlyEvent : Event → Bool
  | .initTrackers => true
  | .saveConfig => true
  | .emaCopy => true
  | .saveFinalWeights => true
  | _ => false

/-- Claim C5: the tracker initialization, the `config.yaml` snapshot and
the final weight export occur in a process's trace exactly when that
process is the primary one, and a non-primary process's trace is the
primary one's trace with precisely the primary-only writes removed: it
reaches every other code point. -/
theorem primary_only_side_effects (isMain useEma : Bool)
    (step : Nat → Nat → Nat) (maxSteps numEpochs firstEpoch gs0 : Nat) :
    (Event.initTrackers ∈
        (mainRun isMain useEma step maxSteps numEpochs firstEpoch gs0).2
      ↔ isMain = true) ∧
    (Event.saveConfig ∈
        (mainRun isMain useEma step maxSteps numEpochs firstEpoch gs0).2
      ↔ isMain = true) ∧
    (Event.saveFinalWeights ∈
        (mainRun isMain useEma step maxSteps numEpochs firstEpoch gs0).2
      ↔ isMain = true) ∧
    (mainRun false useEma step maxSteps numEpochs firstEpoch gs0).2
      = ((mainRun true useEma step maxSteps numEpochs firstEpoch gs0).2).filter
          (fun ev => !primaryOnlyEvent ev) := by
  have h1 : Event.initTrackers
      ∉ (epochLoopGo step maxSteps (numEpochs - firstEpoch) firstEpoch gs0).2 :=
    not_mem_epochLoopGo _ _ _ _ _ _ (fun e a b h => Event.noConfusion h)
  have h2 : Event.saveConfig
      ∉ (epochLoopGo step maxSteps (numEpochs - firstEpoch) firstEpoch gs0).2 :=
    not_mem_epochLoopGo _ _ _ _ _ _ (fun e a b h => Event.noConfusion h)
  have h3 : Event.saveFinalWeights
      ∉ (epochLoopGo step maxSteps (numEpochs - firstEpoch) firstEpoch gs0).2 :=
    not_mem_epochLoopGo _ _ _ _ _ _ (fun e a b h => Event.noConfusion h)
  have hfl : ((epochLoopGo step maxSteps (numEpochs - firstEpoch) firstEpoch gs0).2).filter
        (fun ev => !primaryOnlyEvent ev)
      = (epochLoopGo step maxSteps (numEpochs - firstEpoch) firstEpoch gs0).2 := by
    refine List.filter_eq_self.mpr (fun ev hmem => ?_)
    obtain ⟨e, a, b, rfl⟩ := epochLoopGo_shape step maxSteps _ _ _ ev hmem
    rfl
  refine ⟨?_, ?_, ?_, ?_⟩
  · cases isMain <;> cases useEma <;> simp [mainRun, h1]
  · cases isMain <;> cases useEma <;> simp [mainRun, h2]
  · cases isMain <;> cases useEma <;> simp [mainRun, h3]
  · have hfl2 := hfl
    simp only [primaryOnlyEvent] at hfl2
    cases useEma <;>
      simp [mainRun, List.filter_append, hfl, hfl2, primaryOnlyEvent]

/-- Claim C6: every process's trace has a barrier before the collaborator
setup and all training work, and a second barrier directly after the last
epoch; the post-training barrier is immediately followed by the final
checkpoint save, and the primary-process-only export work (EMA merge,
final weight file) happens only after that barrier, so all processes
observe the same final state first. -/
theorem barrier_bracketing (isMain useEma : Bool)
    (step : Nat → Nat → Nat) (maxSteps numEpochs firstEpoch gs0 : Nat) :
    ∃ pre trainEvs post,
      (mainRun isMain useEma step maxSteps numEpochs firstEpoch gs0).2
        = pre ++ Event.barrier :: Event.loadTokenizer :: Event.prepareTraining ::
            Event.autoResumeCall :: (trainEvs ++ Event.barrier ::
              Event.saveCheckpoint
                (mainRun isMain useEma step maxSteps numEpochs firstEpoch gs0).1 :: post) ∧
      (∀ ev ∈ trainEvs, ∃ e a b, ev = Event.trainEpoch e a b) ∧
      Event.barrier ∉ pre ∧ Event.barrier ∉ trainEvs ∧ Event.barrier ∉ post ∧
      (∀ e a b, Event.trainEpoch e a b ∉ pre ∧ Event.trainEpoch e a b ∉ post) ∧
      Event.saveFinalWeights ∉ pre ∧ Event.saveFinalWeights ∉ trainEvs ∧
      Event.emaCopy ∉ pre ∧ Event.emaCopy ∉ trainEvs ∧
      (∀ g, Event.saveCheckpoint g ∉ pre ∧ Event.saveCheckpoint g ∉ trainEvs) := by
  refine ⟨(if isMain then [Event.initTrackers, Event.saveConfig] else []),
    (epochLoopGo step maxSteps (numEpochs - firstEpoch) firstEpoch gs0).2,
    ((if isMain then (if useEma then [Event.emaCopy] else []) ++ [Event.saveFinalWeights]
        else []) ++ [Event.endTraining]),
    ?_, ?_, ?_, ?_, ?_, ?_, ?_, ?_, ?_, ?_, ?_⟩
  · cases isMain <;> cases useEma <;> simp [mainRun]
  · exact fun ev h => epochLoopGo_shape step maxSteps _ _ _ ev h
  · cases isMain <;> simp
  · exact not_mem_epochLoopGo _ _ _ _ _ _ (fun e a b h => Event.noConfusion h)
  · cases isMain <;> cases useEma <;> simp
  · intro e a b
    constructor
    · cases isMain <;> simp
    · cases isMain <;> cases useEma <;> simp
  · cases isMain <;> simp
  · exact not_mem_epochLoopGo _ _ _ _ _ _ (fun e a b h => Event.noConfusion h)
  · cases isMain <;> simp
  · exact not_mem_epochLoopGo _ _ _ _ _ _ (fun e a b h => Event.noConfusion h)
  · intro g
    exact ⟨by cases isMain <;> simp,
      not_mem_epochLoopGo _ _ _ _ _ _ (fun e a b h => Event.noConfusion h)⟩

/-- Claim C8: the EMA shadow parameters are merged into the model exactly
once, immediately before the primary process's final weight export, and
only when `use_ema` is enabled on the primary process; otherwise no EMA
copy happens anywhere in the run. -/
theorem ema_merge_only_at_export (isMain useEma : Bool)
    (step : Nat → Nat → Nat) (maxSteps numEpochs firstEpoch gs0 : Nat) :
    ∃ l1 l2,
      (mainRun isMain useEma step maxSteps numEpochs firstEpoch gs0).2
        = l1 ++ (if isMain && useEma then [Event.emaCopy, Event.saveFinalWeights] else [])
            ++ l2 ∧
      Event.emaCopy ∉ l1 ∧ Event.emaCopy ∉ l2 ∧
      ((mainRun isMain useEma step maxSteps numEpochs firstEpoch gs0).2).count Event.emaCopy
        = if isMain && useEma then 1 else 0 := by
  have hno : Event.emaCopy
      ∉ (epochLoopGo step maxSteps (numEpochs - firstEpoch) firstEpoch gs0).2 :=
    not_mem_epochLoopGo _ _ _ _ _ _ (fun e a b h => Event.noConfusion h)
  have hc0 : ((epochLoopGo step maxSteps (numEpochs - firstEpoch) firstEpoch gs0).2).count
      Event.emaCopy = 0 := List.count_eq_zero.mpr hno
  cases isMain <;> cases useEma
  · have hnotr : Event.emaCopy
        ∉ (mainRun false false step maxSteps numEpochs firstEpoch gs0).2 := by
      simp [mainRun, hno]
    exact ⟨(mainRun false false step maxSteps numEpochs firstEpoch gs0).2, [],
      by simp, hnotr, by simp, by simp [List.count_eq_zero.mpr hnotr]⟩
  · have hnotr : Event.emaCopy
        ∉ (mainRun false true step maxSteps numEpochs firstEpoch gs0).2 := by
      simp [mainRun, hno]
    exact ⟨(mainRun false true step maxSteps numEpochs firstEpoch gs0).2, [],
      by simp, hnotr, by simp, by simp [List.count_eq_zero.mpr hnotr]⟩
  · have hnotr : Event.emaCopy
        ∉ (mainRun true false step maxSteps numEpochs firstEpoch gs0).2 := by
      simp [mainRun, hno]
    exact ⟨(mainRun true false step maxSteps numEpochs firstEpoch gs0).2, [],
      by simp, hnotr, by simp, by simp [List.count_eq_zero.mpr hnotr]⟩
  · refine ⟨[Event.initTrackers, Event.saveConfig] ++ Event.barrier ::
        Event.loadTokenizer :: Event.prepareTraining :: Event.autoResumeCall ::
        ((epochLoopGo step maxSteps (numEpochs - firstEpoch) firstEpoch gs0).2
          ++ [Event.barrier,
              Event.saveCheckpoint
                (epochLoopGo step maxSteps (numEpochs - firstEpoch) firstEpoch gs0).1]),
      [Event.endTraining], ?_, ?_, ?_, ?_⟩
    · simp [mainRun]
    · simp [hno]
    · simp
    · simp [mainRun, List.count_append, List.count_cons, hc0]

/-- The argument tuple of `setup_logger` (utils/logger.py lines 35-36),
which is also the key of its `functools.lru_cache`. -/
structure LoggerArgs where
  name : String
  log_level : Option String
  color : Bool
  use_accelerate : Bool
  output_file : Option String
deriving Repr, DecidableEq

/-- A handler attached by `setup_logger` to a `logging` logger: the stdout
stream handler or the file handler, each recording whether it carries the
colorful or the plain formatter. -/
inductive Handler where
  | console (colorful : Bool) : Handler
  | file (path : String) (colorful : Bool) : Handler
deriving Repr, DecidableEq

/-- The numeric level `Logger.setLevel` receives: `logging.DEBUG` (10)
when no level string is passed, otherwise the value of the upper-cased
standard level name (utils/logger.py lines 38-41). -/
def levelValue : Option String → Nat
  | none => 10
  | some s =>
    match s.toUpper with
    | "DEBUG" => 10
    | "INFO" => 20
    | "WARNING" => 30
    | "ERROR" => 40
    | "CRITICAL" => 50
    | _ => 0

/-- The mutable state of the `logging` logger registered under a name. -/
structure LoggerRec where
  level : Nat
  handlers : List Handler
deriving Repr, DecidableEq

/-- A logger as `logging.getLogger` freshly creates it: level `NOTSET`
(0) and no handlers attached. -/
def freshLogger : LoggerRec := { level := 0, handlers := [] }

/-- The process-wide state touched by `setup_logger`: the `logging`
module's registry of loggers by name, the `lru_cache` mapping argument
tuples to handles already returned, and a counter allocating fresh handle
identities for the returned objects. -/
structure LoggingState where
  registry : List (String × LoggerRec)
  cache : List (LoggerArgs × Nat)
  nextHandle : Nat
deriving Repr, DecidableEq

/-- The state of a process before its first `setup_logger` call. -/
def LoggingState.empty : LoggingState :=
  { registry := [], cache := [], nextHandle := 0 }

/-- Look a logger up by name, as `logging.getLogger` does. -/
def findLogger : List (String × LoggerRec) → String → Option LoggerRec
  | [], _ => none
  | (k, v) :: rest, n => if k = n then some v else findLogger rest n

/-- Store a logger back under its name. -/
def storeLogger : List (String × LoggerRec) → String → LoggerRec →
    List (String × LoggerRec)
  | [], n, v => [(n, v)]
  | (k, w) :: rest, n, v =>
    if k = n then (n, v) :: rest else (k, w) :: storeLogger rest n v

/-- Look an argument tuple up in the `lru_cache`. -/
def cacheLookup : List (LoggerArgs × Nat) → LoggerArgs → Option Nat
  | [], _ => none
  | (k, v) :: rest, a => if k = a then some v else cacheLookup rest a

/-- `setup_logger` (utils/logger.py lines 34-62). A cache hit returns the
previously returned handle and touches nothing. On a miss the body runs:
it takes the logger registered under `name` (creating a fresh one like
`logging.getLogger`), sets its level, appends a stdout stream handler
carrying the colorful or the plain formatter according to `color`, appends
a file handler with the same formatter when `output_file` is given, and
caches a newly allocated handle (the returned `MultiProcessAdapter` or
logger object) under the argument tuple. -/
def setup_logger (st : LoggingState) (args : LoggerArgs) : LoggingState × Nat :=
  match cacheLookup st.cache args with
  | some h => (st, h)
  | none =>
    let logger := (findLogger st.registry args.name).getD freshLogger
    let withConsole := logger.handlers ++ [Handler.console args.color]
    let withFile :=
      match args.output_file with
      | some f => withConsole ++ [Handler.file f args.color]
      | none => withConsole
    let logger2 : LoggerRec := { level := levelValue args.log_level, handlers := withFile }
    ({ registry := storeLogger st.registry args.name logger2,
       cache := st.cache ++ [(args, st.nextHandle)],
       nextHandle := st.nextHandle + 1 },
     st.nextHandle)

/-- Number of stdout stream handlers in a handler list. -/
def countConsole (hs : List Handler) : Nat :=
  hs.countP (fun h => match h with | Handler.console _ => true | _ => false)

/-- Number of file handlers in a handler list. -/
def countFile (hs : List Handler) : Nat :=
  hs.countP (fun h => match h with | Handler.file _ _ => true | _ => false)

/-- Claim C4: `setup_logger` is idempotent per argument tuple: a second
call with the identical `(name, level, color, multiprocess-flag,
output_file)` tuple is a cache hit that returns the same handle and
leaves the state untouched, and the logger configured under that name
holds exactly one console handler and exactly one file handler. -/
theorem setup_logger_idempotent (n : String) (lvl : Option String)
    (c ua : Bool) (f : String) :
    (setup_logger (setup_logger LoggingState.empty ⟨n, lvl, c, ua, some f⟩).1
        ⟨n, lvl, c, ua, some f⟩).2
      = (setup_logger LoggingState.empty ⟨n, lvl, c, ua, some f⟩).2 ∧
    (setup_logger (setup_logger LoggingState.empty ⟨n, lvl, c, ua, some f⟩).1
        ⟨n, lvl, c, ua, some f⟩).1
      = (setup_logger LoggingState.empty ⟨n, lvl, c, ua, some f⟩).1 ∧
    countConsole ((findLogger (setup_logger (setup_logger LoggingState.empty
        ⟨n, lvl, c, ua, some f⟩).1 ⟨n, lvl, c, ua, some f⟩).1.registry n).getD
          freshLogger).handlers = 1 ∧
    countFile ((findLogger (setup_logger (setup_logger LoggingState.empty
        ⟨n, lvl, c, ua, some f⟩).1 ⟨n, lvl, c, ua, some f⟩).1.registry n).getD
          freshLogger).handlers = 1 := by
  simp [setup_logger, cacheLookup, findLogger, storeLogger, LoggingState.empty,
    freshLogger, countConsole, countFile, List.countP_cons]

/-- Claim C9: idempotence only covers exactly identical tuples: a second
call sharing the `name` but differing in any other argument misses the
`lru_cache`, returns a distinct handle, and attaches one more console
handler to the very logger registered under that name, which afterwards
holds two console handlers. -/
theorem setup_logger_distinct_args_duplicate (a1 a2 : LoggerArgs)
    (hname : a2.name = a1.name) (hne : a1 ≠ a2) :
    cacheLookup (setup_logger LoggingState.empty a1).1.cache a2 = none ∧
    (setup_logger (setup_logger LoggingState.empty a1).1 a2).2
      ≠ (setup_logger LoggingState.empty a1).2 ∧
    countConsole ((findLogger
        (setup_logger (setup_logger LoggingState.empty a1).1 a2).1.registry
        a1.name).getD freshLogger).handlers = 2 := by
  rcases a1 with ⟨n1, l1, c1, u1, o1⟩
  rcases a2 with ⟨n2, l2, c2, u2, o2⟩
  simp only [LoggerArgs.name] at hname
  subst hname
  cases o1 <;> cases o2 <;>
    simp [setup_logger, cacheLookup, findLogger, storeLogger, LoggingState.empty,
      freshLogger, countConsole, countFile, List.countP_cons, hne]

/-- First argument tuple for the claim C9 witness. -/
def argsA : LoggerArgs :=
  { name := "ARModel", log_level := some "INFO", color := true,
    use_accelerate := true, output_file := some "log0.txt" }

/-- Second argument tuple for the claim C9 witness: same name, different
output file. -/
def argsB : LoggerArgs :=
  { name := "ARModel", log_level := some "INFO", color := true,
    use_accelerate := true, output_file := some "log1.txt" }

/-- Witness for claim C9: requesting the same logger name with a second
output file duplicates the console handler. -/
theorem setup_logger_distinct_args_duplicate_witness :
    cacheLookup (setup_logger LoggingState.empty argsA).1.cache argsB = none ∧
    (setup_logger (setup_logger LoggingState.empty argsA).1 argsB).2
      ≠ (setup_logger LoggingState.empty argsA).2 ∧
    countConsole ((findLogger
        (setup_logger (setup_logger LoggingState.empty argsA).1 argsB).1.registry
        argsA.name).getD freshLogger).handlers = 2 :=
  setup_logger_distinct_args_duplicate argsA argsB rfl (by decide)

/-- The ANSI reset sequence `termcolor` appends to every colored text. -/
def ansiReset : String := "\x1b[0m"

/-- `termcolor`'s `fmt_str`: the SGR escape with the given code wrapped
around a text. -/
def ansiCode (code : Nat) (s : String) : String :=
  "\x1b[" ++ toString code ++ "m" ++ s

/-- `termcolor.colored(text, color, attrs=attrs)`: the color escape wraps
the text first, then each attribute escape in list order, and the reset
sequence is appended. Red is SGR 31, green 32, blink 5, underline 4. -/
def colored (text : String) (colorCode : Nat) (attrs : List Nat) : String :=
  (attrs.foldl (fun t a => ansiCode a t) (ansiCode colorCode text)) ++ ansiReset

/-- The fields of a `logging.LogRecord` that
`_ColorfulFormatter.formatMessage` reads. -/
structure LogRecord where
  name : String
  asctime : String
  levelno : Nat
  message : String
deriving Repr, DecidableEq

/-- The state `_ColorfulFormatter.__init__` computes from
`root_name=name` (utils/logger.py lines 15-20): `_root_name` is the name
with a dot appended, and `_abbrev_name` defaults to `_root_name` and then,
being non-empty, receives one more trailing dot. -/
structure ColorfulFormatter where
  rootName : String
  abbrevName : String
deriving Repr, DecidableEq

/-- Constructs the formatter state exactly as `setup_logger` does with
`root_name=name` and no `abbrev_name` argument. -/
def mkColorfulFormatter (name : String) : ColorfulFormatter :=
  let root := name ++ "."
  let ab := root
  { rootName := root,
    abbrevName := if ab.length ≠ 0 then ab ++ "." else ab }

/-- The severity-independent line `super().formatMessage(record)` yields
for the format string
`colored("[%(asctime)s %(name)s]: ", "green") + "%(message)s"`, after
`formatMessage` replaced `_root_name` by `_abbrev_name` inside
`record.name` (utils/logger.py lines 23-24 and 48-52). -/
def plainLine (f : ColorfulFormatter) (r : LogRecord) : String :=
  colored ("[" ++ r.asctime ++ " " ++ (r.name.replace f.rootName f.abbrevName) ++ "]: ")
      32 []
    ++ r.message

/-- `_ColorfulFormatter.formatMessage` (utils/logger.py lines 22-31):
`logging.WARNING` (30) records receive a blinking red `WARNING` marker,
`logging.ERROR` (40) and `logging.CRITICAL` (50) records an underlined
blinking red `ERROR` marker, and every other record is returned exactly
as formatted. -/
def formatMessage (f : ColorfulFormatter) (r : LogRecord) : String :=
  if r.levelno = 30 then colored "WARNING" 31 [5] ++ " " ++ plainLine f r
  else if r.levelno = 40 ∨ r.levelno = 50 then
    colored "ERROR" 31 [5, 4] ++ " " ++ plainLine f r
  else plainLine f r

/-- Claim C7: DEBUG (10) and INFO (20) records are emitted without any
severity marker, WARNING records are prefixed by the blinking warning
marker, ERROR and CRITICAL records by the underlined blinking error
marker, and in every case the record's message content survives unchanged
as a suffix of the formatted line. -/
theorem formatMessage_severity_marks (f : ColorfulFormatter) (r : LogRecord) :
    (r.levelno = 10 ∨ r.levelno = 20 → formatMessage f r = plainLine f r) ∧
    (r.levelno = 30 →
      formatMessage f r = "\x1b[5m\x1b[31mWARNING\x1b[0m " ++ plainLine f r) ∧
    (r.levelno = 40 ∨ r.levelno = 50 →
      formatMessage f r = "\x1b[4m\x1b[5m\x1b[31mERROR\x1b[0m " ++ plainLine f r) ∧
    (∃ p, formatMessage f r = p ++ r.message) := by
  have hplain : ∃ p, plainLine f r = p ++ r.message := ⟨_, rfl⟩
  have hw : colored "WARNING" 31 [5] ++ " " = "\x1b[5m\x1b[31mWARNING\x1b[0m " := by
    decide
  have he : colored "ERROR" 31 [5, 4] ++ " " = "\x1b[4m\x1b[5m\x1b[31mERROR\x1b[0m " := by
    decide
  refine ⟨?_, ?_, ?_, ?_⟩
  · intro h
    have h30 : ¬ r.levelno = 30 := by omega
    have h45 : ¬ (r.levelno = 40 ∨ r.levelno = 50) := by omega
    unfold formatMessage
    rw [if_neg h30, if_neg h45]
  · intro h
    unfold formatMessage
    rw [if_pos h, hw]
  · intro h
    have h30 : ¬ r.levelno = 30 := by omega
    unfold formatMessage
    rw [if_neg h30, if_pos h, he]
  · obtain ⟨p, hp⟩ := hplain
    unfold formatMessage
    by_cases h30 : r.levelno = 30
    · rw [if_pos h30, hp, ← String.append_assoc]
      exact ⟨_, rfl⟩
    · rw [if_neg h30]
      by_cases h45 : r.levelno = 40 ∨ r.levelno = 50
      · rw [if_pos h45, hp, ← String.append_assoc]
        exact ⟨_, rfl⟩
      · rw [if_neg h45, hp]
        exact ⟨_, rfl⟩

/-- A concrete WARNING record for the claim C7 witness. -/
def warnRecord : LogRecord :=
  { name := "ARModel", asctime := "06/01 12:00:00", levelno := 30,
    message := "loss diverged" }

/-- Witness for claim C7: a WARNING record is rendered with the blinking
red marker in front of the plainly formatted line. -/
theorem formatMessage_severity_marks_witness :
    formatMessage (mkColorfulFormatter "ARModel") warnRecord
      = "\x1b[5m\x1b[31mWARNING\x1b[0m "
        ++ plainLine (mkColorfulFormatter "ARModel") warnRecord :=
  (formatMessage_severity_marks (mkColorfulFormatter "ARModel") warnRecord).2.1 rfl

end AliTok
